import Mathlib

/-!
Verification of the HeartSmiles backend request admission and routing
pipeline (`src/api/index.js`).

The file shallowly embeds the decision logic of the Express application:
the CORS origin matcher, the rate limiter configuration and its
fixed-window semantics, the path-fix middleware, the dual route mounts,
the error and 404 responders, and the process-level fault handlers.

JavaScript strings are modelled either as Lean `String` (for whole-value
comparisons) or as `List Char` (`JStr`, for positional operations such as
`startsWith`, `substring` and pathname extraction); the two renderings
are used where each is most convenient and agree on every concrete value.
-/

/-- JS strings viewed as character lists, for positional operations. -/
abbrev JStr := List Char

/-- Process environment variables consumed by the CORS configuration.
`none` models an unset variable; `some ""` a set-but-empty one. -/
structure AppEnv where
  frontendUrl : Option String
  vercelUrl : Option String
  nextPublicVercelUrl : Option String
deriving DecidableEq

/-- The environment with none of the optional origin variables set. -/
def env0 : AppEnv := { frontendUrl := none, vercelUrl := none, nextPublicVercelUrl := none }

/-- JS truthiness of a possibly-absent string: `undefined`/`null` and the
empty string are falsy, every other string is truthy. -/
def jsTruthyStr : Option String → Bool
  | none => false
  | some s => !(s == "")

/-- One entry of the `allowedOrigins` array: an exact string, or the one
`RegExp` literal (the preview-deployment wildcard). -/
inductive OriginRule where
  | lit (s : String)
  | wildcard
deriving DecidableEq

/-- A character matched by an unflagged JS regex `.` (anything except the
four line terminators). -/
def jsRegexDot (c : Char) : Bool :=
  !(c == '\n') && !(c == '\r') && !(c.val == 8232) && !(c.val == 8233)

/-- The test of the literal `/^https:\/\/heart-smiles-frontend.*\.vercel\.app$/`:
the whole string is the fixed head, then any run of `.`-matchable
characters, then the fixed tail. -/
def wildcardTest (s : String) : Bool :=
  let cs := s.toList
  let hd := "https://heart-smiles-frontend".toList
  let tl := ".vercel.app".toList
  hd.isPrefixOf cs && tl.isSuffixOf cs && hd.length + tl.length ≤ cs.length &&
    ((cs.drop hd.length).take (cs.length - hd.length - tl.length)).all jsRegexDot

/-- `allowedOrigins` from `src/api/index.js` lines 62-77: three localhost
literals, three environment-derived entries, two deployed literals, the
wildcard `RegExp`, with `.filter(Boolean)` dropping absent or empty
entries (the `RegExp` object is always truthy). -/
def allowedOrigins (env : AppEnv) : List OriginRule :=
  (([ some (OriginRule.lit "http://localhost:3000"),
      some (OriginRule.lit "http://localhost:3002"),
      some (OriginRule.lit "http://localhost:3003"),
      env.frontendUrl.map OriginRule.lit,
      if jsTruthyStr env.vercelUrl then
        some (OriginRule.lit ("https://" ++ env.vercelUrl.getD "")) else none,
      if jsTruthyStr env.nextPublicVercelUrl then
        some (OriginRule.lit ("https://" ++ env.nextPublicVercelUrl.getD "")) else none,
      some (OriginRule.lit "https://heart-smiles-frontend-deployment-2mkr2p0k8-sara-devis-projects.vercel.app"),
      some (OriginRule.lit "https://heart-smiles-frontend.vercel.app"),
      some OriginRule.wildcard ] : List (Option OriginRule)).filterMap id).filter
    (fun r => match r with
      | OriginRule.lit s => !(s == "")
      | OriginRule.wildcard => true)

/-- The body of the `allowedOrigins.some(...)` callback: a string entry
matches by `===`, the `RegExp` entry by `.test`. -/
def ruleMatches (origin : String) : OriginRule → Bool
  | OriginRule.lit s => s == origin
  | OriginRule.wildcard => wildcardTest origin

/-- `isOriginAllowed` from `src/api/index.js` lines 81-88: a falsy origin
(absent header, or the empty string) is allowed unconditionally; otherwise
some entry of `allowedOrigins` must match. -/
def isOriginAllowed (env : AppEnv) (origin : Option String) : Bool :=
  if jsTruthyStr origin then (allowedOrigins env).any (ruleMatches (origin.getD ""))
  else true

/-- The options object passed to `rateLimit(...)` in `src/api/index.js`
lines 46-56 (`standardHeaders`/`legacyHeaders`/`validate` only shape the
response headers and are not part of the admission decision). -/
structure LimiterConfig where
  windowMs : Nat
  max : Nat
  message : String
  skip : String → Bool

/-- The `limiter` configuration: 15-minute window, 100 hits, fixed
advisory message, and `skip: (req) => req.path === '/api/health'`. -/
def limiter : LimiterConfig :=
  { windowMs := 15 * 60 * 1000
    max := 100
    message := "Too many requests from this IP, please try again after 15 minutes"
    skip := fun p => p == "/api/health" }

/-- Per-client store entry of the fixed-window limiter: hits so far and
the start time of the current window. -/
structure ClientEntry where
  totalHits : Nat
  windowStart : Nat
deriving DecidableEq

/-- Outcome of one request at the rate limiter. -/
inductive LimitDecision where
  | admitted
  | rejected (msg : String)
deriving DecidableEq

/-- One request through `express-rate-limit`'s fixed-window algorithm with
the given options: a skipped path bypasses counting entirely; otherwise
the hit counter for the client is incremented (starting a fresh window
when none exists or the old one has elapsed) and the request is admitted
exactly when the incremented count is within `max`. -/
def limiterStep (cfg : LimiterConfig) (st : Option ClientEntry) (now : Nat) (path : String) :
    Option ClientEntry × LimitDecision :=
  if cfg.skip path then (st, LimitDecision.admitted)
  else
    let entry :=
      match st with
      | none => { totalHits := 1, windowStart := now }
      | some e =>
          if e.windowStart + cfg.windowMs ≤ now then { totalHits := 1, windowStart := now }
          else { totalHits := e.totalHits + 1, windowStart := e.windowStart }
    (some entry,
     if entry.totalHits ≤ cfg.max then LimitDecision.admitted
     else LimitDecision.rejected cfg.message)

/-- The decisions the limiter takes on a sequence of `(time, path)`
requests from one client identity. -/
def runLimiter (cfg : LimiterConfig) : Option ClientEntry → List (Nat × String) → List LimitDecision
  | _, [] => []
  | st, (t, p) :: rest =>
    (limiterStep cfg st t p).2 :: runLimiter cfg (limiterStep cfg st t p).1 rest

/-- The client-store state after a sequence of requests. -/
def runLimiterSt (cfg : LimiterConfig) : Option ClientEntry → List (Nat × String) → Option ClientEntry
  | st, [] => st
  | st, (t, p) :: rest => runLimiterSt cfg (limiterStep cfg st t p).1 rest

/-- The decision list produced by `n` counted in-window requests starting
from a hit count of `k`. -/
def expectedRun (cfg : LimiterConfig) : Nat → Nat → List LimitDecision
  | _, 0 => []
  | k, n + 1 =>
    (if k + 1 ≤ cfg.max then LimitDecision.admitted else LimitDecision.rejected cfg.message) ::
      expectedRun cfg (k + 1) n

/-- A character that is not `'?'` — the characters belonging to the
pathname part of a URL. -/
def notQMark (c : Char) : Bool := !(c == '?')

/-- The `req.path` Express derives from `req.url`: everything before the
first `'?'` (server request targets carry no fragment). -/
def pathname (url : JStr) : JStr := url.takeWhile notQMark

/-- The query-string part of `req.url`: everything from the first `'?'`
on (empty when there is none). -/
def searchPart (url : JStr) : JStr := url.dropWhile notQMark

/-- The fixed routing prefix with its trailing slash, `'/api/'`. -/
def apiSlash : JStr := "/api/".toList

/-- The fixed routing prefix, `'/api'`. -/
def apiLit : JStr := "/api".toList

/-- JS `String.prototype.includes` for a single character. -/
def jsIncludes (url : JStr) (c : Char) : Bool := url.any (fun x => x == c)

/-- The path-fix middleware, `src/api/index.js` lines 123-139: when
`req.originalUrl` starts with `'/api/'` but `req.path` does not, set
`req.url = '/api' + req.path + (req.url.includes('?') ?
req.url.substring(req.path.length) : '')` and prepend `'/api'` to
`req.originalUrl`; otherwise leave both unchanged. Returns the new
`(url, originalUrl)` pair. -/
def pathFix (url originalUrl : JStr) : JStr × JStr :=
  let p := pathname url
  if apiSlash.isPrefixOf originalUrl && !(apiSlash.isPrefixOf p) then
    (apiLit ++ p ++ (if jsIncludes url '?' then url.drop p.length else []),
     apiLit ++ originalUrl)
  else (url, originalUrl)

/-- The effective-path component of the same middleware, as the spec's
`normalize(rawPath, rawOriginalUrl) -> effectivePath` contract: the
rewritten `req.path` is `'/api' + req.path` exactly under the middleware's
condition. -/
def normalizePath (p originalUrl : JStr) : JStr :=
  if apiSlash.isPrefixOf originalUrl && !(apiSlash.isPrefixOf p) then apiLit ++ p else p

/-- The seven resource collaborator instances required at the top of
`src/api/index.js` (each `require('../routes/...')` evaluates once, so
every mount of the same name shares one instance). -/
inductive Collab where
  | authRoutes
  | participantRoutes
  | programRoutes
  | staffRoutes
  | uploadRoutes
  | exportRoutes
  | importRoutes
deriving DecidableEq

/-- The unprefixed mount path of each collaborator. -/
def resourcePath : Collab → JStr
  | Collab.authRoutes => "/auth".toList
  | Collab.participantRoutes => "/participants".toList
  | Collab.programRoutes => "/programs".toList
  | Collab.staffRoutes => "/staff".toList
  | Collab.uploadRoutes => "/upload".toList
  | Collab.exportRoutes => "/export".toList
  | Collab.importRoutes => "/import".toList

/-- The fourteen `app.use(path, routes)` mounts of `src/api/index.js`
lines 200-213, in registration order: all seven resources under `/api`,
then the same seven instances unprefixed. -/
def mounts : List (JStr × Collab) :=
  [ ("/api/auth".toList, Collab.authRoutes),
    ("/api/participants".toList, Collab.participantRoutes),
    ("/api/programs".toList, Collab.programRoutes),
    ("/api/staff".toList, Collab.staffRoutes),
    ("/api/upload".toList, Collab.uploadRoutes),
    ("/api/export".toList, Collab.exportRoutes),
    ("/api/import".toList, Collab.importRoutes),
    ("/auth".toList, Collab.authRoutes),
    ("/participants".toList, Collab.participantRoutes),
    ("/programs".toList, Collab.programRoutes),
    ("/staff".toList, Collab.staffRoutes),
    ("/upload".toList, Collab.uploadRoutes),
    ("/export".toList, Collab.exportRoutes),
    ("/import".toList, Collab.importRoutes) ]

/-- The `/api`-prefixed mount path of each collaborator. -/
def apiResourcePath (c : Collab) : JStr := "/api".toList ++ resourcePath c

/-- Express mount matching: the mount path must be a prefix of the
request pathname and end at a path-segment boundary (`/staff` matches
`/staff` and `/staff/1` but not `/staffx`). -/
def mountMatches (mountPath path : JStr) : Bool :=
  mountPath.isPrefixOf path &&
    ((path.drop mountPath.length).isEmpty || (path.drop mountPath.length).head? == some '/')

/-- Which collaborator a pathname reaches: the first mount in
registration order whose path matches. -/
def dispatch : List (JStr × Collab) → JStr → Option Collab
  | [], _ => none
  | (mp, c) :: rest, path =>
    if mountMatches mp path then some c else dispatch rest path

/-- The routable targets registered on the app besides the mounts: the
root info endpoint, the two test endpoints, the favicon handlers, the two
health endpoints, a mounted collaborator, or nothing (the 404 handler). -/
inductive Target where
  | rootInfo
  | testEndpoint
  | apiTestEndpoint
  | favicon
  | collab (c : Collab)
  | healthApi
  | healthPlain
  | notFoundRoute
deriving DecidableEq

/-- Route resolution in registration order (`src/api/index.js` lines
142-229): the `app.get` endpoints for `/`, `/test`, `/api/test` and the
favicons, then the fourteen mounts, then the `app.get` health endpoints,
and otherwise the 404 handler. -/
def route (method : String) (path : JStr) : Target :=
  if method == "GET" && path == "/".toList then Target.rootInfo
  else if method == "GET" && path == "/test".toList then Target.testEndpoint
  else if method == "GET" && path == "/api/test".toList then Target.apiTestEndpoint
  else if method == "GET" &&
      (path == "/favicon.ico".toList || path == "/favicon.png".toList) then Target.favicon
  else
    match dispatch mounts path with
    | some c => Target.collab c
    | none =>
      if method == "GET" && path == "/api/health".toList then Target.healthApi
      else if method == "GET" && path == "/health".toList then Target.healthPlain
      else Target.notFoundRoute

/-- The middleware stages installed with `app.use`, as data, in source
order: `helmet()` (line 43), `limiter` (line 57), `cors(...)` (line 90),
`express.json` (line 119), `express.urlencoded` (line 120), the path-fix
middleware (line 123), then the routing layer. -/
inductive Stage where
  | helmetStage
  | limiterStage
  | corsStage
  | jsonStage
  | urlencodedStage
  | pathFixStage
  | routerStage
deriving DecidableEq

/-- The installation order of the stages. -/
def pipeline : List Stage :=
  [Stage.helmetStage, Stage.limiterStage, Stage.corsStage, Stage.jsonStage,
   Stage.urlencodedStage, Stage.pathFixStage, Stage.routerStage]

/-- How a request leaves the pipeline: a 429 from the limiter, a CORS
rejection, or dispatch to a route target. -/
inductive Outcome where
  | tooMany (msg : String)
  | corsBlocked
  | routed (t : Target)
deriving DecidableEq

/-- Mutable per-request view threaded through the stages: the outcome (if
already decided), this client's hit count in the current rate window, and
the request's `url`/`originalUrl` fields. -/
structure RState where
  out : Option Outcome
  count : Nat
  url : JStr
  originalUrl : JStr
deriving DecidableEq

/-- The effect of one middleware stage on a request, within a single rate
window: `helmet` and the body parsers pass through; the limiter skips
`/api/health` and otherwise counts the hit, rejecting above `max`; the
CORS stage rejects disallowed origins; the path-fix stage rewrites
`url`/`originalUrl`; the router resolves the (possibly rewritten)
pathname. A stage after a decided outcome does nothing. -/
def stageStep (env : AppEnv) (origin : Option String) (method : String)
    (s : RState) (st : Stage) : RState :=
  match s.out with
  | some _ => s
  | none =>
    match st with
    | Stage.helmetStage => s
    | Stage.limiterStage =>
        if limiter.skip (String.mk (pathname s.url)) then s
        else
          let hits := s.count + 1
          if limiter.max < hits then
            { s with count := hits, out := some (Outcome.tooMany limiter.message) }
          else { s with count := hits }
    | Stage.corsStage =>
        if isOriginAllowed env origin then s
        else { s with out := some Outcome.corsBlocked }
    | Stage.jsonStage => s
    | Stage.urlencodedStage => s
    | Stage.pathFixStage =>
        { s with url := (pathFix s.url s.originalUrl).1,
                 originalUrl := (pathFix s.url s.originalUrl).2 }
    | Stage.routerStage =>
        { s with out := some (Outcome.routed (route method (pathname s.url))) }

/-- One request through the whole installed pipeline, starting from this
client's current hit count. -/
def runPipe (env : AppEnv) (origin : Option String) (method : String)
    (url originalUrl : JStr) (count : Nat) : RState :=
  pipeline.foldl (stageStep env origin method)
    { out := none, count := count, url := url, originalUrl := originalUrl }

/-- A JS `Error` as the error middleware consumes it: an optional numeric
`status` (`some 0` models a falsy `status` of `0`), a `message` and a
`stack`. -/
structure JsError where
  status : Option Nat
  message : String
  stack : String
deriving DecidableEq

/-- The JSON failure payload the error middleware sends, together with the
HTTP status it sets. -/
structure ErrResponse where
  status : Nat
  error : String
  message : String
  stack : Option String
deriving DecidableEq

/-- The error-handling middleware, `src/api/index.js` lines 232-246:
status `err.status || 500` (JS `||`, so a falsy `0` also becomes 500), the
fixed `error` text, and `err.message`/`err.stack` exposed exactly when
`NODE_ENV === 'development'`, otherwise the generic message and no stack. -/
def errorHandler (nodeEnv : Option String) (err : JsError) : ErrResponse :=
  let isDevelopment := nodeEnv == some "development"
  { status :=
      match err.status with
      | some s => if s == 0 then 500 else s
      | none => 500
    error := "Something went wrong!"
    message := if isDevelopment then err.message else "Internal server error"
    stack := if isDevelopment then some err.stack else none }

/-- The JSON payload of the 404 handler, with the HTTP status it sets. -/
structure NotFoundBody where
  status : Nat
  error : String
  debugPath : JStr
  debugMethod : String
  availableRoutes : List String
deriving DecidableEq

/-- The 404 handler, `src/api/index.js` lines 249-280: status 404, fixed
`error` text, the request's path and method echoed in the debug object,
and the fixed `availableRoutes` list. -/
def notFoundHandler (path : JStr) (method : String) : NotFoundBody :=
  { status := 404
    error := "Route not found"
    debugPath := path
    debugMethod := method
    availableRoutes :=
      ["GET /", "GET /test", "GET /api/test", "GET /api/health", "GET /health",
       "POST /api/auth/login", "POST /auth/login"] }

/-- What a process-level fault handler does with the process. -/
inductive ProcAction where
  | keepRunning
  | exitProcess (code : Nat)
deriving DecidableEq

/-- A fault handler's observable effect: whether it logs, and what it does
with the process. -/
structure HandlerEffect where
  logged : Bool
  action : ProcAction
deriving DecidableEq

/-- The `process.on('unhandledRejection', ...)` handler, `src/api/index.js`
lines 283-285: it logs and never exits, in any mode. -/
def onUnhandledRejection (_nodeEnv : Option String) : HandlerEffect :=
  { logged := true, action := ProcAction.keepRunning }

/-- The `process.on('uncaughtException', ...)` handler, `src/api/index.js`
lines 287-292: it logs, and calls `process.exit(1)` exactly when
`NODE_ENV !== 'production'`. -/
def onUncaughtException (nodeEnv : Option String) : HandlerEffect :=
  { logged := true
    action :=
      if nodeEnv == some "production" then ProcAction.keepRunning
      else ProcAction.exitProcess 1 }

/-- The wildcard rule survives `.filter(Boolean)` in every environment. -/
lemma wildcard_mem_allowedOrigins (env : AppEnv) :
    OriginRule.wildcard ∈ allowedOrigins env := by
  refine List.mem_filter.mpr ⟨List.mem_filterMap.mpr ⟨some OriginRule.wildcard, ?_, rfl⟩, rfl⟩
  simp [allowedOrigins]

/-- The `.some` loop over a rule list succeeds exactly when the origin is a
listed literal or the listed wildcard matches it. -/
lemma any_ruleMatches_iff (l : List OriginRule) (o : String) :
    l.any (ruleMatches o) = true ↔
      OriginRule.lit o ∈ l ∨ (OriginRule.wildcard ∈ l ∧ wildcardTest o = true) := by
  rw [List.any_eq_true]
  constructor
  · rintro ⟨r, hr, hm⟩
    cases r with
    | lit s =>
      left
      have : s = o := by simpa [ruleMatches] using hm
      exact this ▸ hr
    | wildcard =>
      right
      exact ⟨hr, by simpa [ruleMatches] using hm⟩
  · rintro (hlit | ⟨hw, hwt⟩)
    · exact ⟨OriginRule.lit o, hlit, by simp [ruleMatches]⟩
    · exact ⟨OriginRule.wildcard, hw, by simpa [ruleMatches] using hwt⟩

/-- Claim C1, counterexample: the code's truthiness guard `if (!origin)`
also admits a *present but empty* `Origin` header, which equals no
configured literal and does not match the wildcard pattern, so "a present
origin is allowed if and only if it exactly equals one of the configured
literal origins or matches the wildcard pattern" fails at `origin = ""`. -/
theorem c1_counterexample :
    isOriginAllowed env0 (some "") = true ∧
    (allowedOrigins env0).any (ruleMatches "") = false ∧
    wildcardTest "" = false := by decide

/-- Claim C1, amended: an absent *or empty* origin is allowed
unconditionally; a present non-empty origin is allowed iff it exactly
equals a configured literal origin or matches the wildcard pattern
(matching is case-sensitive and non-substring: the attacker-controlled
subdomain and an upper-cased literal are denied, a genuine preview
subdomain is allowed). -/
theorem c1_origin_matcher (env : AppEnv) (o : String) (ho : (o == "") = false) :
    isOriginAllowed env none = true ∧
    isOriginAllowed env (some "") = true ∧
    (isOriginAllowed env (some o) = true ↔
      OriginRule.lit o ∈ allowedOrigins env ∨ wildcardTest o = true) ∧
    isOriginAllowed env0 (some "https://heart-smiles-frontendx.attacker.com") = false ∧
    isOriginAllowed env0 (some "https://heart-smiles-frontend-preview123.vercel.app") = true ∧
    isOriginAllowed env0 (some "HTTP://LOCALHOST:3000") = false := by
  refine ⟨by simp [isOriginAllowed, jsTruthyStr], by simp [isOriginAllowed, jsTruthyStr],
    ?_, by decide, by decide, by decide⟩
  rw [show isOriginAllowed env (some o) = (allowedOrigins env).any (ruleMatches o) from by
    simp [isOriginAllowed, jsTruthyStr, ho]]
  rw [any_ruleMatches_iff]
  constructor
  · rintro (h | ⟨_, h⟩)
    · exact Or.inl h
    · exact Or.inr h
  · rintro (h | h)
    · exact Or.inl h
    · exact Or.inr ⟨wildcard_mem_allowedOrigins env, h⟩

/-- Claim C1, witness: the amended theorem applied to the base environment
and a concrete non-empty origin. -/
theorem c1_origin_matcher_witness :
    isOriginAllowed env0 none = true ∧
    isOriginAllowed env0 (some "") = true ∧
    (isOriginAllowed env0 (some "https://evil.example.com") = true ↔
      OriginRule.lit "https://evil.example.com" ∈ allowedOrigins env0 ∨
        wildcardTest "https://evil.example.com" = true) ∧
    isOriginAllowed env0 (some "https://heart-smiles-frontendx.attacker.com") = false ∧
    isOriginAllowed env0 (some "https://heart-smiles-frontend-preview123.vercel.app") = true ∧
    isOriginAllowed env0 (some "HTTP://LOCALHOST:3000") = false :=
  c1_origin_matcher env0 "https://evil.example.com" (by decide)

/-- Splitting a request sequence splits the limiter's decision list. -/
lemma runLimiter_append (cfg : LimiterConfig) (st : Option ClientEntry)
    (l1 l2 : List (Nat × String)) :
    runLimiter cfg st (l1 ++ l2) =
      runLimiter cfg st l1 ++ runLimiter cfg (runLimiterSt cfg st l1) l2 := by
  induction l1 generalizing st with
  | nil => simp [runLimiter, runLimiterSt]
  | cons hd tl ih =>
    obtain ⟨t, p⟩ := hd
    simp [runLimiter, runLimiterSt, ih]

/-- Counted requests that all land inside the window that opened at `t0`
just keep incrementing the same entry's hit count. -/
lemma runLimiter_burst (cfg : LimiterConfig) (p : String) (hp : cfg.skip p = false) (t0 : Nat) :
    ∀ (ts : List Nat) (k : Nat), (∀ t ∈ ts, t < t0 + cfg.windowMs) →
      runLimiter cfg (some { totalHits := k, windowStart := t0 }) (ts.map fun t => (t, p)) =
        expectedRun cfg k ts.length := by
  intro ts
  induction ts with
  | nil => intro k _; simp [runLimiter, expectedRun]
  | cons t ts ih =>
    intro k hts
    have hlt : ¬ (t0 + cfg.windowMs ≤ t) := by
      have h := hts t (by simp)
      omega
    have hts' : ∀ x ∈ ts, x < t0 + cfg.windowMs := fun x hx => hts x (by simp [hx])
    have hstep : limiterStep cfg (some { totalHits := k, windowStart := t0 }) t p =
        (some { totalHits := k + 1, windowStart := t0 },
         if k + 1 ≤ cfg.max then LimitDecision.admitted else LimitDecision.rejected cfg.message) := by
      simp [limiterStep, hp, hlt]
    simp only [List.map_cons, runLimiter, List.length_cons, expectedRun, hstep]
    exact congrArg _ (ih (k + 1) hts')

/-- State counterpart of `runLimiter_burst`: after `n` counted in-window
requests the entry holds `k + n` hits and the original window start. -/
lemma runLimiterSt_burst (cfg : LimiterConfig) (p : String) (hp : cfg.skip p = false) (t0 : Nat) :
    ∀ (ts : List Nat) (k : Nat), (∀ t ∈ ts, t < t0 + cfg.windowMs) →
      runLimiterSt cfg (some { totalHits := k, windowStart := t0 }) (ts.map fun t => (t, p)) =
        some { totalHits := k + ts.length, windowStart := t0 } := by
  intro ts
  induction ts with
  | nil => intro k _; simp [runLimiterSt]
  | cons t ts ih =>
    intro k hts
    have hlt : ¬ (t0 + cfg.windowMs ≤ t) := by
      have h := hts t (by simp)
      omega
    have hts' : ∀ x ∈ ts, x < t0 + cfg.windowMs := fun x hx => hts x (by simp [hx])
    have hstep : limiterStep cfg (some { totalHits := k, windowStart := t0 }) t p =
        (some { totalHits := k + 1, windowStart := t0 },
         if k + 1 ≤ cfg.max then LimitDecision.admitted else LimitDecision.rejected cfg.message) := by
      simp [limiterStep, hp, hlt]
    simp only [List.map_cons, runLimiterSt, List.length_cons, hstep]
    rw [ih (k + 1) hts']
    have : k + 1 + ts.length = k + (ts.length + 1) := by omega
    rw [this]

set_option maxRecDepth 4000 in
/-- Claim C2: the limiter uses a fixed 15-minute window and a cap of 100;
100 requests from one identity inside the window are all admitted, a
101st in-window request is rejected with the fixed advisory message, and
a 101st request whose path is the exempted health path is still
admitted (whatever its time). -/
theorem c2_rate_limiter (t0 t1 th : Nat) (ts : List Nat) (p : String)
    (hp : limiter.skip p = false)
    (hn : ts.length = 99)
    (hts : ∀ t ∈ ts, t < t0 + limiter.windowMs)
    (ht1 : t1 < t0 + limiter.windowMs) :
    limiter.windowMs = 15 * 60 * 1000 ∧
    limiter.max = 100 ∧
    runLimiter limiter none ((t0 :: ts).map fun t => (t, p)) =
      List.replicate 100 LimitDecision.admitted ∧
    runLimiter limiter none (((t0 :: ts).map fun t => (t, p)) ++ [(t1, p)]) =
      List.replicate 100 LimitDecision.admitted ++
        [LimitDecision.rejected "Too many requests from this IP, please try again after 15 minutes"] ∧
    runLimiter limiter none (((t0 :: ts).map fun t => (t, p)) ++ [(th, "/api/health")]) =
      List.replicate 101 LimitDecision.admitted := by
  have hstep0 : limiterStep limiter none t0 p =
      (some { totalHits := 1, windowStart := t0 }, LimitDecision.admitted) := by
    have h1 : (1 : Nat) ≤ limiter.max := by decide
    simp [limiterStep, hp, h1]
  have hrun : runLimiter limiter none ((t0 :: ts).map fun t => (t, p)) =
      LimitDecision.admitted :: expectedRun limiter 1 ts.length := by
    simp only [List.map_cons, runLimiter, hstep0]
    rw [runLimiter_burst limiter p hp t0 ts 1 hts]
  have hst : runLimiterSt limiter none ((t0 :: ts).map fun t => (t, p)) =
      some { totalHits := 100, windowStart := t0 } := by
    simp only [List.map_cons, runLimiterSt, hstep0]
    rw [runLimiterSt_burst limiter p hp t0 ts 1 hts, hn]
  refine ⟨rfl, rfl, ?_, ?_, ?_⟩
  · rw [hrun, hn]
    decide
  · rw [runLimiter_append, hrun, hst, hn]
    have hlt : ¬ (t0 + limiter.windowMs ≤ t1) := by omega
    have hstep1 : limiterStep limiter (some { totalHits := 100, windowStart := t0 }) t1 p =
        (some { totalHits := 101, windowStart := t0 },
         LimitDecision.rejected limiter.message) := by
      have h101 : ¬ ((101 : Nat) ≤ limiter.max) := by decide
      simp [limiterStep, hp, hlt, h101]
    simp only [runLimiter, hstep1]
    decide
  · rw [runLimiter_append, hrun, hst, hn]
    have hsteph : limiterStep limiter (some { totalHits := 100, windowStart := t0 }) th "/api/health" =
        (some { totalHits := 100, windowStart := t0 }, LimitDecision.admitted) := by
      have hsk : limiter.skip "/api/health" = true := by decide
      simp [limiterStep, hsk]
    simp only [runLimiter, hsteph]
    decide

/-- Claim C2, witness: a concrete burst of 101 requests at time 0 from one
identity, plus the health-path variant. -/
theorem c2_rate_limiter_witness :
    limiter.windowMs = 15 * 60 * 1000 ∧
    limiter.max = 100 ∧
    runLimiter limiter none ((0 :: List.replicate 99 0).map fun t => (t, "/participants")) =
      List.replicate 100 LimitDecision.admitted ∧
    runLimiter limiter none
        (((0 :: List.replicate 99 0).map fun t => (t, "/participants")) ++ [(0, "/participants")]) =
      List.replicate 100 LimitDecision.admitted ++
        [LimitDecision.rejected "Too many requests from this IP, please try again after 15 minutes"] ∧
    runLimiter limiter none
        (((0 :: List.replicate 99 0).map fun t => (t, "/participants")) ++ [(0, "/api/health")]) =
      List.replicate 101 LimitDecision.admitted :=
  c2_rate_limiter 0 0 0 (List.replicate 99 0) "/participants"
    (by decide) (by decide) (by decide) (by decide)

/-- `takeWhile` walks through a block whose characters all satisfy the
predicate. -/
lemma takeWhile_append_all (q : Char → Bool) (l1 l2 : JStr) (h : ∀ c ∈ l1, q c = true) :
    (l1 ++ l2).takeWhile q = l1 ++ l2.takeWhile q := by
  induction l1 with
  | nil => simp
  | cons a l ih =>
    have ha := h a (by simp)
    simp [List.takeWhile_cons, ha, ih (fun c hc => h c (by simp [hc]))]

/-- `dropWhile` skips a block whose characters all satisfy the predicate. -/
lemma dropWhile_append_all (q : Char → Bool) (l1 l2 : JStr) (h : ∀ c ∈ l1, q c = true) :
    (l1 ++ l2).dropWhile q = l2.dropWhile q := by
  induction l1 with
  | nil => simp
  | cons a l ih =>
    have ha := h a (by simp)
    simp [List.dropWhile_cons, ha, ih (fun c hc => h c (by simp [hc]))]

/-- Dropping the pathname's length from a URL yields its query part. -/
lemma drop_length_pathname (url : JStr) : url.drop (pathname url).length = searchPart url := by
  induction url with
  | nil => rfl
  | cons a l ih =>
    by_cases hq : notQMark a = true
    · simpa [pathname, searchPart, List.takeWhile_cons, List.dropWhile_cons, hq] using ih
    · simp at hq
      simp [pathname, searchPart, List.takeWhile_cons, List.dropWhile_cons, hq]

/-- The query part starts with a failing character (or is empty), so
`takeWhile` takes nothing from it. -/
lemma takeWhile_dropWhile_nil (q : Char → Bool) (l : JStr) :
    (l.dropWhile q).takeWhile q = [] := by
  induction l with
  | nil => rfl
  | cons a l ih =>
    by_cases hq : q a = true
    · simpa [List.dropWhile_cons, hq] using ih
    · simp at hq
      simp [List.dropWhile_cons, hq, List.takeWhile_cons]

/-- `dropWhile` is idempotent. -/
lemma dropWhile_dropWhile (q : Char → Bool) (l : JStr) :
    (l.dropWhile q).dropWhile q = l.dropWhile q := by
  induction l with
  | nil => rfl
  | cons a l ih =>
    by_cases hq : q a = true
    · simpa [List.dropWhile_cons, hq] using ih
    · simp at hq
      simp [List.dropWhile_cons, hq]

/-- Without a `'?'` anywhere, the whole URL is pathname and the query part
is empty. -/
lemma searchPart_eq_nil_of_no_qmark (url : JStr) (h : jsIncludes url '?' = false) :
    searchPart url = [] := by
  induction url with
  | nil => rfl
  | cons a l ih =>
    simp only [jsIncludes, List.any_cons, Bool.or_eq_false_iff] at h
    have ha : notQMark a = true := by simp [notQMark, h.1]
    simpa [searchPart, List.dropWhile_cons, ha] using ih (by simp [jsIncludes, h.2])

/-- `'/api'` contains no `'?'`. -/
lemma apiLit_all_notQMark : ∀ c ∈ apiLit, notQMark c = true := by decide

/-- Claim C3: when the original URL begins with `'/api/'` but the parsed
path does not, the middleware's rewritten URL has pathname
`'/api' + path` and an unchanged query string; any other request passes
through unchanged; concretely, original URL `/api/participants?x=1` with
observed path `/participants` is rewritten to URL `/api/participants?x=1`
(pathname `/api/participants`, query `?x=1` intact). -/
theorem c3_path_fix :
    (∀ url ou : JStr, apiSlash.isPrefixOf ou = true →
        apiSlash.isPrefixOf (pathname url) = false →
        pathname (pathFix url ou).1 = apiLit ++ pathname url ∧
        searchPart (pathFix url ou).1 = searchPart url) ∧
    (∀ url ou : JStr,
        (apiSlash.isPrefixOf ou && !(apiSlash.isPrefixOf (pathname url))) = false →
        pathFix url ou = (url, ou)) ∧
    pathFix "/participants?x=1".toList "/api/participants?x=1".toList =
      ("/api/participants?x=1".toList, "/api/api/participants?x=1".toList) ∧
    pathname (pathFix "/participants?x=1".toList "/api/participants?x=1".toList).1 =
      "/api/participants".toList ∧
    searchPart (pathFix "/participants?x=1".toList "/api/participants?x=1".toList).1 =
      "?x=1".toList := by
  refine ⟨?_, ?_, by decide, by decide, by decide⟩
  · intro url ou h1 h2
    have hcond : (apiSlash.isPrefixOf ou && !(apiSlash.isPrefixOf (pathname url))) = true := by
      simp [h1, h2]
    have hP : ∀ c ∈ pathname url, notQMark c = true := fun c hc => List.mem_takeWhile_imp hc
    have hfix : (pathFix url ou).1 =
        apiLit ++ pathname url ++
          (if jsIncludes url '?' then url.drop (pathname url).length else []) := by
      simp only [pathFix, hcond, if_true]
    constructor
    · rw [hfix, List.append_assoc]
      show (apiLit ++ (pathname url ++ _)).takeWhile notQMark = _
      rw [takeWhile_append_all notQMark apiLit _ apiLit_all_notQMark,
        takeWhile_append_all notQMark (pathname url) _ hP]
      by_cases hq : jsIncludes url '?' = true
      · rw [if_pos hq, drop_length_pathname]
        show apiLit ++ (pathname url ++ (searchPart url).takeWhile notQMark) = _
        rw [show (searchPart url).takeWhile notQMark = [] from
          takeWhile_dropWhile_nil notQMark url]
        simp
      · simp only [Bool.not_eq_true] at hq
        rw [if_neg (by simp [hq])]
        simp
    · rw [hfix, List.append_assoc]
      show (apiLit ++ (pathname url ++ _)).dropWhile notQMark = _
      rw [dropWhile_append_all notQMark apiLit _ apiLit_all_notQMark,
        dropWhile_append_all notQMark (pathname url) _ hP]
      by_cases hq : jsIncludes url '?' = true
      · rw [if_pos hq, drop_length_pathname]
        exact dropWhile_dropWhile notQMark url
      · simp only [Bool.not_eq_true] at hq
        rw [if_neg (by simp [hq])]
        rw [searchPart_eq_nil_of_no_qmark url hq]
        rfl
  · intro url ou hcond
    simp only [pathFix, hcond]
    rfl

/-- Claim C3, witness: the stripped-prefix case at the spec's concrete
request, and a pass-through case. -/
theorem c3_path_fix_witness :
    pathname (pathFix "/participants?x=1".toList "/api/participants?x=1".toList).1 =
      apiLit ++ pathname "/participants?x=1".toList ∧
    searchPart (pathFix "/participants?x=1".toList "/api/participants?x=1".toList).1 =
      searchPart "/participants?x=1".toList ∧
    pathFix "/health".toList "/health".toList = ("/health".toList, "/health".toList) :=
  ⟨(c3_path_fix.1 "/participants?x=1".toList "/api/participants?x=1".toList
      (by decide) (by decide)).1,
   (c3_path_fix.1 "/participants?x=1".toList "/api/participants?x=1".toList
      (by decide) (by decide)).2,
   c3_path_fix.2.1 "/health".toList "/health".toList (by decide)⟩

/-- A list is a `isPrefixOf`-prefix of itself followed by anything. -/
lemma isPrefixOf_append_self : ∀ (l s : JStr), l.isPrefixOf (l ++ s) = true := by
  intro l s
  induction l with
  | nil => cases s <;> rfl
  | cons a l ih => simp [List.isPrefixOf, ih]

/-- Claim C4, counterexample: for a parsed path that does not begin with
`'/'` the normalizer is not idempotent — with `p = "x"` and
`u = "/api/x"` one application yields `"/apix"` and a second application
double-prefixes to `"/api/apix"`, so `normalize(normalize(p,u),u) =
normalize(p,u)` fails "for all inputs". -/
theorem c4_counterexample :
    normalizePath "x".toList "/api/x".toList = "/apix".toList ∧
    normalizePath (normalizePath "x".toList "/api/x".toList) "/api/x".toList =
      "/api/apix".toList ∧
    (normalizePath (normalizePath "x".toList "/api/x".toList) "/api/x".toList ==
      normalizePath "x".toList "/api/x".toList) = false := by decide

/-- Claim C4, amended: the normalizer is idempotent on every input whose
path component begins with `'/'` (which Express guarantees for
`req.path`); applying it twice to such an already-normalized path never
double-prefixes. -/
theorem c4_normalize_idem (p u : JStr) (hp : p.head? = some '/') :
    normalizePath (normalizePath p u) u = normalizePath p u := by
  cases hcond : (apiSlash.isPrefixOf u && !(apiSlash.isPrefixOf p)) with
  | false => simp [normalizePath, hcond]
  | true =>
    obtain ⟨c, t, rfl⟩ : ∃ c t, p = c :: t := by
      cases p with
      | nil => simp at hp
      | cons c t => exact ⟨c, t, rfl⟩
    have hc : c = '/' := by simpa using hp
    subst hc
    have he : (apiLit ++ '/' :: t : JStr) = apiSlash ++ t := rfl
    have hpre : apiSlash.isPrefixOf (apiLit ++ '/' :: t) = true := by
      rw [he]
      exact isPrefixOf_append_self apiSlash t
    simp [normalizePath, hcond, hpre]

/-- Claim C4, witness: idempotence at the spec's concrete request. -/
theorem c4_normalize_idem_witness :
    normalizePath (normalizePath "/participants".toList "/api/participants?x=1".toList)
        "/api/participants?x=1".toList =
      normalizePath "/participants".toList "/api/participants?x=1".toList :=
  c4_normalize_idem "/participants".toList "/api/participants?x=1".toList (by decide)

/-- If a candidate mount path already disagrees with `l` on `l`'s first
characters, it is not a prefix of `l ++ sub` for any `sub`. -/
lemma not_isPrefixOf_append (pre l sub : JStr)
    (h : (pre.take l.length).isPrefixOf l = false) :
    pre.isPrefixOf (l ++ sub) = false := by
  induction l generalizing pre with
  | nil => simp [List.isPrefixOf] at h
  | cons b l ih =>
    cases pre with
    | nil => simp [List.isPrefixOf] at h
    | cons a pre =>
      rw [List.length_cons, List.take_succ_cons] at h
      rw [List.cons_append]
      simp only [List.isPrefixOf] at h ⊢
      cases hab : a == b with
      | false => simp [hab]
      | true =>
        simp only [hab, Bool.true_and] at h ⊢
        exact ih pre h

/-- A mount whose path disagrees with `l` early never matches requests
under `l`. -/
lemma mountMatches_false_of_take (pre l sub : JStr)
    (h : (pre.take l.length).isPrefixOf l = false) :
    mountMatches pre (l ++ sub) = false := by
  simp [mountMatches, not_isPrefixOf_append pre l sub h]

/-- A mount matches its own path followed by nothing or a slash-led
suffix. -/
lemma mountMatches_boundary (pre sub : JStr) (hsub : sub = [] ∨ sub.head? = some '/') :
    mountMatches pre (pre ++ sub) = true := by
  simp only [mountMatches, isPrefixOf_append_self, Bool.true_and, List.drop_left]
  rcases hsub with h | h
  · simp [h]
  · simp [h]

/-- Dispatch walks past mounts that disagree with the request's base path
and stops at the first matching mount. -/
lemma dispatch_append_skip (l1 l2 : List (JStr × Collab)) (base sub : JStr) (c : Collab)
    (h1 : ∀ pc ∈ l1, (pc.1.take base.length).isPrefixOf base = false)
    (hsub : sub = [] ∨ sub.head? = some '/') :
    dispatch (l1 ++ (base, c) :: l2) (base ++ sub) = some c := by
  induction l1 with
  | nil => simp [dispatch, mountMatches_boundary base sub hsub]
  | cons hd tl ih =>
    obtain ⟨mp, c1⟩ := hd
    have hf : mountMatches mp (base ++ sub) = false :=
      mountMatches_false_of_take mp base sub (h1 (mp, c1) (by simp))
    rw [List.cons_append]
    simp only [dispatch, hf, Bool.false_eq_true, if_false]
    exact ih (fun pc hpc => h1 pc (by simp [hpc]))

/-- Claim C5: every resource is mounted both under `/api` and unprefixed,
both mounts carry the same collaborator instance, and a request to either
form of any resource path (with any path suffix) dispatches to that same
collaborator — so both URLs produce identical responses for identical
inputs. -/
theorem c5_dual_mount (c : Collab) (sub : JStr)
    (hsub : sub = [] ∨ sub.head? = some '/') :
    (apiResourcePath c, c) ∈ mounts ∧
    (resourcePath c, c) ∈ mounts ∧
    dispatch mounts (apiResourcePath c ++ sub) = some c ∧
    dispatch mounts (resourcePath c ++ sub) = some c ∧
    dispatch mounts (apiResourcePath c ++ sub) = dispatch mounts (resourcePath c ++ sub) := by
  cases c with
  | authRoutes =>
    have h1 : dispatch mounts (apiResourcePath Collab.authRoutes ++ sub) =
        some Collab.authRoutes :=
      dispatch_append_skip (mounts.take 0) (mounts.drop 1) ("/api/auth".toList) sub
        Collab.authRoutes (by decide) hsub
    have h2 : dispatch mounts (resourcePath Collab.authRoutes ++ sub) =
        some Collab.authRoutes :=
      dispatch_append_skip (mounts.take 7) (mounts.drop 8) ("/auth".toList) sub
        Collab.authRoutes (by decide) hsub
    exact ⟨by decide, by decide, h1, h2, h1.trans h2.symm⟩
  | participantRoutes =>
    have h1 : dispatch mounts (apiResourcePath Collab.participantRoutes ++ sub) =
        some Collab.participantRoutes :=
      dispatch_append_skip (mounts.take 1) (mounts.drop 2) ("/api/participants".toList) sub
        Collab.participantRoutes (by decide) hsub
    have h2 : dispatch mounts (resourcePath Collab.participantRoutes ++ sub) =
        some Collab.participantRoutes :=
      dispatch_append_skip (mounts.take 8) (mounts.drop 9) ("/participants".toList) sub
        Collab.participantRoutes (by decide) hsub
    exact ⟨by decide, by decide, h1, h2, h1.trans h2.symm⟩
  | programRoutes =>
    have h1 : dispatch mounts (apiResourcePath Collab.programRoutes ++ sub) =
        some Collab.programRoutes :=
      dispatch_append_skip (mounts.take 2) (mounts.drop 3) ("/api/programs".toList) sub
        Collab.programRoutes (by decide) hsub
    have h2 : dispatch mounts (resourcePath Collab.programRoutes ++ sub) =
        some Collab.programRoutes :=
      dispatch_append_skip (mounts.take 9) (mounts.drop 10) ("/programs".toList) sub
        Collab.programRoutes (by decide) hsub
    exact ⟨by decide, by decide, h1, h2, h1.trans h2.symm⟩
  | staffRoutes =>
    have h1 : dispatch mounts (apiResourcePath Collab.staffRoutes ++ sub) =
        some Collab.staffRoutes :=
      dispatch_append_skip (mounts.take 3) (mounts.drop 4) ("/api/staff".toList) sub
        Collab.staffRoutes (by decide) hsub
    have h2 : dispatch mounts (resourcePath Collab.staffRoutes ++ sub) =
        some Collab.staffRoutes :=
      dispatch_append_skip (mounts.take 10) (mounts.drop 11) ("/staff".toList) sub
        Collab.staffRoutes (by decide) hsub
    exact ⟨by decide, by decide, h1, h2, h1.trans h2.symm⟩
  | uploadRoutes =>
    have h1 : dispatch mounts (apiResourcePath Collab.uploadRoutes ++ sub) =
        some Collab.uploadRoutes :=
      dispatch_append_skip (mounts.take 4) (mounts.drop 5) ("/api/upload".toList) sub
        Collab.uploadRoutes (by decide) hsub
    have h2 : dispatch mounts (resourcePath Collab.uploadRoutes ++ sub) =
        some Collab.uploadRoutes :=
      dispatch_append_skip (mounts.take 11) (mounts.drop 12) ("/upload".toList) sub
        Collab.uploadRoutes (by decide) hsub
    exact ⟨by decide, by decide, h1, h2, h1.trans h2.symm⟩
  | exportRoutes =>
    have h1 : dispatch mounts (apiResourcePath Collab.exportRoutes ++ sub) =
        some Collab.exportRoutes :=
      dispatch_append_skip (mounts.take 5) (mounts.drop 6) ("/api/export".toList) sub
        Collab.exportRoutes (by decide) hsub
    have h2 : dispatch mounts (resourcePath Collab.exportRoutes ++ sub) =
        some Collab.exportRoutes :=
      dispatch_append_skip (mounts.take 12) (mounts.drop 13) ("/export".toList) sub
        Collab.exportRoutes (by decide) hsub
    exact ⟨by decide, by decide, h1, h2, h1.trans h2.symm⟩
  | importRoutes =>
    have h1 : dispatch mounts (apiResourcePath Collab.importRoutes ++ sub) =
        some Collab.importRoutes :=
      dispatch_append_skip (mounts.take 6) (mounts.drop 7) ("/api/import".toList) sub
        Collab.importRoutes (by decide) hsub
    have h2 : dispatch mounts (resourcePath Collab.importRoutes ++ sub) =
        some Collab.importRoutes :=
      dispatch_append_skip (mounts.take 13) (mounts.drop 14) ("/import".toList) sub
        Collab.importRoutes (by decide) hsub
    exact ⟨by decide, by decide, h1, h2, h1.trans h2.symm⟩

/-- Claim C5, witness: `/api/staff/1` and `/staff/1` dispatch to the same
collaborator instance. -/
theorem c5_dual_mount_witness :
    (apiResourcePath Collab.staffRoutes, Collab.staffRoutes) ∈ mounts ∧
    (resourcePath Collab.staffRoutes, Collab.staffRoutes) ∈ mounts ∧
    dispatch mounts (apiResourcePath Collab.staffRoutes ++ "/1".toList) =
      some Collab.staffRoutes ∧
    dispatch mounts (resourcePath Collab.staffRoutes ++ "/1".toList) =
      some Collab.staffRoutes ∧
    dispatch mounts (apiResourcePath Collab.staffRoutes ++ "/1".toList) =
      dispatch mounts (resourcePath Collab.staffRoutes ++ "/1".toList) :=
  c5_dual_mount Collab.staffRoutes "/1".toList (by decide)

/-- Claim C6, counterexample: `NODE_ENV = 'test'` is a non-production
operating mode, yet the error responder returns the generic message and
no stack instead of the underlying `err.message` — the code gates detail
on `NODE_ENV === 'development'`, not on "non-production". -/
theorem c6_counterexample :
    errorHandler (some "test") { status := none, message := "boom", stack := "trace" } =
      { status := 500, error := "Something went wrong!", message := "Internal server error",
        stack := none } ∧
    ((errorHandler (some "test")
        { status := none, message := "boom", stack := "trace" }).message == "boom") = false ∧
    (("test" : String) == "production") = false := by decide

/-- Claim C6, amended: the error responder returns the failure's declared
status (500 for an absent or falsy-zero status) with the fixed generic
`error` text; the raw message and stack are included exactly when
`NODE_ENV === 'development'`; in every other mode — production, but also
non-production modes such as `'test'` or an unset `NODE_ENV` — the client
receives only the generic message and no stack. -/
theorem c6_error_responder (nodeEnv : Option String) (err : JsError) :
    (errorHandler nodeEnv err).error = "Something went wrong!" ∧
    (errorHandler nodeEnv err).status =
      (match err.status with
        | some s => if s == 0 then 500 else s
        | none => 500) ∧
    ((errorHandler nodeEnv err).message = err.message ∧
        (errorHandler nodeEnv err).stack = some err.stack ↔
      (nodeEnv == some "development") = true) ∧
    ((errorHandler nodeEnv err).message = "Internal server error" ∧
        (errorHandler nodeEnv err).stack = none ↔
      (nodeEnv == some "development") = false) ∧
    (errorHandler (some "production") err).message = "Internal server error" ∧
    (errorHandler (some "production") err).stack = none := by
  have hprod : ((some "production" : Option String) == some "development") = false := by decide
  by_cases hdev : (nodeEnv == some "development") = true
  · simp [errorHandler, hdev, hprod]
  · rw [Bool.not_eq_true] at hdev
    simp [errorHandler, hdev, hprod]

/-- Claim C7: a request that matches no configured route gets a
structured 404 — never a 500 — echoing the requested path and method and
enumerating the fixed list of known endpoints. -/
theorem c7_not_found (path : JStr) (method : String)
    (_hroute : route method path = Target.notFoundRoute) :
    (notFoundHandler path method).status = 404 ∧
    (notFoundHandler path method).status ≠ 500 ∧
    (notFoundHandler path method).error = "Route not found" ∧
    (notFoundHandler path method).debugPath = path ∧
    (notFoundHandler path method).debugMethod = method ∧
    (notFoundHandler path method).availableRoutes =
      ["GET /", "GET /test", "GET /api/test", "GET /api/health", "GET /health",
       "POST /api/auth/login", "POST /auth/login"] :=
  ⟨rfl, by show (404 : Nat) ≠ 500; decide, rfl, rfl, rfl, rfl⟩

/-- Claim C7, witness: the spec's unmatched path `/does-not-exist`. -/
theorem c7_not_found_witness :
    (notFoundHandler "/does-not-exist".toList "GET").status = 404 ∧
    (notFoundHandler "/does-not-exist".toList "GET").status ≠ 500 ∧
    (notFoundHandler "/does-not-exist".toList "GET").error = "Route not found" ∧
    (notFoundHandler "/does-not-exist".toList "GET").debugPath = "/does-not-exist".toList ∧
    (notFoundHandler "/does-not-exist".toList "GET").debugMethod = "GET" ∧
    (notFoundHandler "/does-not-exist".toList "GET").availableRoutes =
      ["GET /", "GET /test", "GET /api/test", "GET /api/health", "GET /health",
       "POST /api/auth/login", "POST /auth/login"] :=
  c7_not_found "/does-not-exist".toList "GET" (by decide)

/-- Claim C8, counterexample: in the installed order the rate limiter
(line 57) precedes the CORS middleware (line 90), so a request from a
disallowed origin is counted by the limiter (hit count becomes 1) before
the origin check rejects it — not "rejected by the origin check before it
is counted". -/
theorem c8_counterexample :
    pipeline.indexOf Stage.limiterStage < pipeline.indexOf Stage.corsStage ∧
    (runPipe env0 (some "https://evil.example.com") "GET" "/participants".toList
        "/participants".toList 0).out = some Outcome.corsBlocked ∧
    (runPipe env0 (some "https://evil.example.com") "GET" "/participants".toList
        "/participants".toList 0).count = 1 := by decide

/-- Claim C8, amended: every request traverses the stages in the order
Rate Limiter, then Origin Matcher, then body decoding, then Path
Normalizer, then Router; a request from a disallowed origin is counted by
the rate limiter and then rejected by the origin check (never reaching
the later stages, which leave `url`/`originalUrl` untouched). -/
theorem c8_pipeline_order (env : AppEnv) (origin : Option String) (method : String)
    (url ou : JStr) (count : Nat)
    (hskip : limiter.skip (String.mk (pathname url)) = false)
    (hcap : count + 1 ≤ limiter.max)
    (horig : isOriginAllowed env origin = false) :
    pipeline.indexOf Stage.limiterStage < pipeline.indexOf Stage.corsStage ∧
    pipeline.indexOf Stage.corsStage < pipeline.indexOf Stage.jsonStage ∧
    pipeline.indexOf Stage.jsonStage < pipeline.indexOf Stage.urlencodedStage ∧
    pipeline.indexOf Stage.urlencodedStage < pipeline.indexOf Stage.pathFixStage ∧
    pipeline.indexOf Stage.pathFixStage < pipeline.indexOf Stage.routerStage ∧
    runPipe env origin method url ou count =
      { out := some Outcome.corsBlocked, count := count + 1, url := url, originalUrl := ou } := by
  refine ⟨by decide, by decide, by decide, by decide, by decide, ?_⟩
  have hlt : ¬ (limiter.max < count + 1) := by omega
  simp [runPipe, pipeline, stageStep, hskip, hlt, horig]

/-- Claim C8, witness: a concrete disallowed-origin request. -/
theorem c8_pipeline_order_witness :
    pipeline.indexOf Stage.limiterStage < pipeline.indexOf Stage.corsStage ∧
    pipeline.indexOf Stage.corsStage < pipeline.indexOf Stage.jsonStage ∧
    pipeline.indexOf Stage.jsonStage < pipeline.indexOf Stage.urlencodedStage ∧
    pipeline.indexOf Stage.urlencodedStage < pipeline.indexOf Stage.pathFixStage ∧
    pipeline.indexOf Stage.pathFixStage < pipeline.indexOf Stage.routerStage ∧
    runPipe env0 (some "https://evil.example.com") "GET" "/participants".toList
        "/participants".toList 0 =
      { out := some Outcome.corsBlocked, count := 1, url := "/participants".toList,
        originalUrl := "/participants".toList } :=
  c8_pipeline_order env0 (some "https://evil.example.com") "GET" "/participants".toList
    "/participants".toList 0 (by decide) (by decide) (by decide)

/-- Claim C9, counterexample: the `unhandledRejection` handler never
exits the process — in the non-production mode `'development'` (and with
`NODE_ENV` unset) it only logs and continues, so "exits in every
non-production mode" fails for unhandled promise rejections. -/
theorem c9_counterexample :
    (onUnhandledRejection (some "development")).action = ProcAction.keepRunning ∧
    (onUnhandledRejection none).action = ProcAction.keepRunning ∧
    ((onUnhandledRejection (some "development")).action == ProcAction.exitProcess 1) = false := by
  decide

/-- Claim C9, amended: both process-level fault handlers log the fault;
an unhandled promise rejection never terminates the process in any mode;
an uncaught exception terminates the process (exit code 1) exactly when
`NODE_ENV` is not `'production'`, and in production the process keeps
serving. -/
theorem c9_process_handlers (nodeEnv : Option String) :
    (onUnhandledRejection nodeEnv).logged = true ∧
    (onUncaughtException nodeEnv).logged = true ∧
    (onUnhandledRejection nodeEnv).action = ProcAction.keepRunning ∧
    (onUncaughtException nodeEnv).action =
      (if nodeEnv == some "production" then ProcAction.keepRunning
       else ProcAction.exitProcess 1) ∧
    (onUncaughtException (some "production")).action = ProcAction.keepRunning ∧
    (onUncaughtException (some "development")).action = ProcAction.exitProcess 1 ∧
    (onUncaughtException (some "test")).action = ProcAction.exitProcess 1 ∧
    (onUncaughtException none).action = ProcAction.exitProcess 1 :=
  ⟨rfl, rfl, rfl, rfl, by decide, by decide, by decide, by decide⟩

/-- Claim C10: the limiter exemption keys on the path observed *before*
the path-fix middleware runs and only on the exact string `/api/health`:
a request served by the unprefixed `/health` endpoint is counted (and is
rejected once the cap is reached), a request reaching `/api/health`
through the stripped-prefix rewrite (limiter sees `/health`) is counted
and rejected at the cap as well, while a request arriving with path
`/api/health` bypasses counting even beyond the cap. -/
theorem c10_limiter_exemption :
    limiter.skip "/api/health" = true ∧
    limiter.skip "/health" = false ∧
    pipeline.indexOf Stage.limiterStage < pipeline.indexOf Stage.pathFixStage ∧
    (runPipe env0 none "GET" "/health".toList "/health".toList 0).count = 1 ∧
    (runPipe env0 none "GET" "/health".toList "/health".toList 0).out =
      some (Outcome.routed Target.healthPlain) ∧
    (runPipe env0 none "GET" "/health".toList "/api/health".toList 0).count = 1 ∧
    (runPipe env0 none "GET" "/health".toList "/api/health".toList 0).out =
      some (Outcome.routed Target.healthApi) ∧
    (runPipe env0 none "GET" "/health".toList "/health".toList 100).out =
      some (Outcome.tooMany limiter.message) ∧
    (runPipe env0 none "GET" "/health".toList "/api/health".toList 100).out =
      some (Outcome.tooMany limiter.message) ∧
    (runPipe env0 none "GET" "/api/health".toList "/api/health".toList 100).count = 100 ∧
    (runPipe env0 none "GET" "/api/health".toList "/api/health".toList 100).out =
      some (Outcome.routed Target.healthApi) := by decide
